import Mathlib

/-!
Verification development for the Dify chat/workflow front-end (`src/dify.py`).

The file shallowly embeds the streaming event-to-text reducers
(`chatbot_streaming`, `workflow_streaming`) and the blocking request paths
(`chatbot_blocking`, `workflow_blocking`) of `dify.py`.  JSON values are
modelled by the inductive type `Json`; Python `dict.get`, truthiness, and the
short-circuiting `or` are modelled by `Json.getD`, `Json.truthy` and
`Json.por`.  The line decoder (prefix check + `json.loads`) is modelled by a
small executable JSON reader (`jsonLoads`), and `json.dumps(..., indent=2)`
by `Json.dumps2`.  The HTTP transport is an external collaborator and is
modelled by the outcome it delivers (`HttpResult` / `BlockingHttp`).
-/

/-- Json models a decoded Python JSON value: `null`, booleans, integers,
strings, lists and (insertion-ordered) dicts.  Floats do not occur in any
payload considered here and are omitted. -/
inductive Json where
  | null : Json
  | bool (b : Bool) : Json
  | num (n : Int) : Json
  | str (s : String) : Json
  | arr (elems : List Json) : Json
  | obj (fields : List (String × Json)) : Json

/-- Python `d.get(k, default)` on a dict; on a non-dict value the call sites
in `dify.py` would raise, but they are only reached with dict payloads, and
we return the default there. -/
def Json.getD : Json → String → Json → Json
  | .obj fields, k, d =>
    match fields.lookup k with
    | some v => v
    | none => d
  | _, _, d => d

/-- Python `k in d` membership test on a dict. -/
def Json.hasKey : Json → String → Bool
  | .obj fields, k => (fields.lookup k).isSome
  | _, _ => false

/-- Python truthiness of a JSON value: `None`, `False`, `0`, `""`, `[]` and
an empty dict are falsy, everything else is truthy. -/
def Json.truthy : Json → Bool
  | .null => false
  | .bool b => b
  | .num n => n != 0
  | .str s => s != ""
  | .arr l => !l.isEmpty
  | .obj l => !l.isEmpty

/-- Python short-circuiting `a or b`: returns `a` when `a` is truthy,
otherwise `b`. -/
def Json.por (a b : Json) : Json := if a.truthy then a else b

/-- Python `==` between a JSON value and a string literal (used for the
`event in [...]` and `event == "..."` dispatch tests): true exactly when the
value is that string. -/
def Json.eqStr : Json → String → Bool
  | .str s, t => s == t
  | _, _ => false

/-- The text of a fragment when the fragment is a string; `none` otherwise
(where the Streamlit caller, which concatenates fragments with `+=`, would
raise a `TypeError`). -/
def Json.asText : Json → Option String
  | .str s => some s
  | _ => none

/-- Display text produced by a list of yielded fragments: the concatenation
of their string contents, defined only when every fragment is a string (the
UI accumulates them with string `+=` and would raise on anything else). -/
def displayText : List Json → Option String
  | [] => some ""
  | f :: fs =>
    match f.asText, displayText fs with
    | some s, some t => some (s ++ t)
    | _, _ => none

/-- Concatenation of a list of strings in order. -/
def concatStrings : List String → String
  | [] => ""
  | s :: l => s ++ concatStrings l

/-- Python `str()` of atomic JSON values (`None`, `True`, `False`, ints). -/
def Json.pyStrAtom : Json → String
  | .null => "None"
  | .bool true => "True"
  | .bool false => "False"
  | .num n => toString n
  | .str s => s
  | .arr _ => ""
  | .obj _ => ""

mutual

/-- Python `repr()` of a JSON value, as used when a composite value ends up
inside an f-string; string escaping inside `repr` is simplified (no call
site in a claim reaches a composite or quoted value). -/
def Json.pyRepr : Json → String
  | .str s => "'" ++ s ++ "'"
  | .arr xs => "[" ++ pyReprElems xs ++ "]"
  | .obj kvs => "\x7b" ++ pyReprFields kvs ++ "\x7d"
  | j => j.pyStrAtom
termination_by structural j => j

/-- Comma-separated `repr` list of elements. -/
def pyReprElems : List Json → String
  | [] => ""
  | [x] => Json.pyRepr x
  | x :: xs => Json.pyRepr x ++ ", " ++ pyReprElems xs
termination_by structural l => l

/-- Comma-separated `repr` list of dict entries. -/
def pyReprFields : List (String × Json) → String
  | [] => ""
  | [(k, v)] => "'" ++ k ++ "': " ++ Json.pyRepr v
  | (k, v) :: kvs => "'" ++ k ++ "': " ++ Json.pyRepr v ++ ", " ++ pyReprFields kvs
termination_by structural l => l

end

/-- Python `str()` of a JSON value as interpolated by an f-string: strings
verbatim, atoms via `str`, composites via `repr`. -/
def Json.pyStr : Json → String
  | .str s => s
  | .arr xs => Json.pyRepr (.arr xs)
  | .obj kvs => Json.pyRepr (.obj kvs)
  | j => j.pyStrAtom

/-- Escape of one character inside a serialized JSON string, as produced by
`json.dumps` (the control characters and non-ASCII escapes that never occur
in the payloads considered here are left verbatim). -/
def jsonEscapeChar (c : Char) : String :=
  if c == '"' then "\\\""
  else if c == '\\' then "\\\\"
  else if c == '\n' then "\\n"
  else if c == '\t' then "\\t"
  else if c == '\r' then "\\r"
  else String.mk [c]

/-- Escape of a string body for `json.dumps`. -/
def jsonEscape (s : String) : String :=
  String.join (s.data.map jsonEscapeChar)

/-- A run of `n` spaces, for `json.dumps(..., indent=2)` indentation. -/
def indentSpaces (n : Nat) : String := String.mk (List.replicate n ' ')

mutual

/-- Python `json.dumps(v, indent=2)` at indentation level `lvl` (the source
always calls it with `indent=2`; the top-level call uses `lvl = 0`).  Empty
containers print without newlines, matching `json.dumps`. -/
def Json.dumps2 : Nat → Json → String
  | _, .null => "null"
  | _, .bool true => "true"
  | _, .bool false => "false"
  | _, .num n => toString n
  | _, .str s => "\"" ++ jsonEscape s ++ "\""
  | _, .arr [] => "[]"
  | lvl, .arr (x :: xs) =>
    "[\n" ++ dumps2Elems (lvl + 2) (x :: xs) ++ "\n" ++ indentSpaces lvl ++ "]"
  | _, .obj [] => "\x7b\x7d"
  | lvl, .obj (kv :: kvs) =>
    "\x7b\n" ++ dumps2Fields (lvl + 2) (kv :: kvs) ++ "\n" ++ indentSpaces lvl ++ "\x7d"
termination_by structural _ j => j

/-- Serialized, indented array elements for `Json.dumps2`, one per line,
comma-separated. -/
def dumps2Elems : Nat → List Json → String
  | _, [] => ""
  | lvl, [x] => indentSpaces lvl ++ Json.dumps2 lvl x
  | lvl, x :: xs =>
    indentSpaces lvl ++ Json.dumps2 lvl x ++ ",\n" ++ dumps2Elems lvl xs
termination_by structural _ l => l

/-- Serialized, indented object members for `Json.dumps2`, one per line,
comma-separated. -/
def dumps2Fields : Nat → List (String × Json) → String
  | _, [] => ""
  | lvl, [(k, v)] =>
    indentSpaces lvl ++ "\"" ++ jsonEscape k ++ "\": " ++ Json.dumps2 lvl v
  | lvl, (k, v) :: kvs =>
    indentSpaces lvl ++ "\"" ++ jsonEscape k ++ "\": " ++ Json.dumps2 lvl v ++
      ",\n" ++ dumps2Fields lvl kvs
termination_by structural _ l => l

end

/-- A character is JSON whitespace (space, tab, newline, carriage return). -/
def isWsChar (c : Char) : Bool :=
  c == ' ' || c == '\t' || c == '\n' || c == '\r'

/-- Drop leading JSON whitespace. -/
def skipWs : List Char → List Char
  | [] => []
  | c :: cs => if isWsChar c then skipWs cs else c :: cs

/-- Read the body of a JSON string after the opening quote, handling the
single-character escapes (`\u` escapes never occur in the inputs considered
and make the read fail).  Returns the decoded characters and the rest after
the closing quote. -/
def readStringChars : List Char → Option (List Char × List Char)
  | [] => none
  | '"' :: rest => some ([], rest)
  | '\\' :: e :: rest =>
    let esc : Option Char :=
      if e == '"' then some '"'
      else if e == '\\' then some '\\'
      else if e == '/' then some '/'
      else if e == 'n' then some '\n'
      else if e == 't' then some '\t'
      else if e == 'r' then some '\r'
      else if e == 'b' then some (Char.ofNat 8)
      else if e == 'f' then some (Char.ofNat 12)
      else none
    match esc with
    | some c => (readStringChars rest).map (fun p => (c :: p.1, p.2))
    | none => none
  | ['\\'] => none
  | c :: rest => (readStringChars rest).map (fun p => (c :: p.1, p.2))

/-- Split off a maximal run of leading decimal digits. -/
def takeDigits : List Char → (List Char × List Char)
  | [] => ([], [])
  | c :: cs =>
    if c.isDigit then
      let p := takeDigits cs
      (c :: p.1, p.2)
    else ([], c :: cs)

/-- Numeric value of a run of decimal digits. -/
def digitsToNat (ds : List Char) : Nat :=
  ds.foldl (fun acc c => acc * 10 + (c.toNat - 48)) 0

/-- Insert a key into an insertion-ordered dict the way Python does: replace
the value in place when the key exists, append otherwise. -/
def objInsert : List (String × Json) → String → Json → List (String × Json)
  | [], k, v => [(k, v)]
  | (k0, v0) :: rest, k, v =>
    if k0 == k then (k0, v) :: rest else (k0, v0) :: objInsert rest k v

mutual

/-- Read one JSON value (fuel-bounded recursive descent; the fuel is only a
termination device — `jsonLoads` passes more fuel than any input can use).
Ints are supported, float syntax is not (no payload here carries floats). -/
def readVal : Nat → List Char → Option (Json × List Char)
  | 0, _ => none
  | Nat.succ fuel, cs0 =>
    match skipWs cs0 with
    | [] => none
    | 'n' :: 'u' :: 'l' :: 'l' :: rest => some (Json.null, rest)
    | 't' :: 'r' :: 'u' :: 'e' :: rest => some (Json.bool true, rest)
    | 'f' :: 'a' :: 'l' :: 's' :: 'e' :: rest => some (Json.bool false, rest)
    | '"' :: rest =>
      (readStringChars rest).map (fun p => (Json.str (String.mk p.1), p.2))
    | '\x7b' :: rest =>
      match skipWs rest with
      | '\x7d' :: rest2 => some (Json.obj [], rest2)
      | rest2 => readMembers fuel rest2 []
    | '[' :: rest =>
      match skipWs rest with
      | ']' :: rest2 => some (Json.arr [], rest2)
      | rest2 => readElems fuel rest2 []
    | '-' :: rest =>
      let p := takeDigits rest
      if p.1.isEmpty then none
      else some (Json.num (-(digitsToNat p.1 : Int)), p.2)
    | c :: rest =>
      if c.isDigit then
        let p := takeDigits (c :: rest)
        some (Json.num (digitsToNat p.1 : Int), p.2)
      else none

/-- Read the members of a JSON object after the opening brace (non-empty
case), accumulating dict entries. -/
def readMembers : Nat → List Char → List (String × Json) →
    Option (Json × List Char)
  | 0, _, _ => none
  | Nat.succ fuel, cs, acc =>
    match skipWs cs with
    | '"' :: rest =>
      match readStringChars rest with
      | none => none
      | some (kcs, rest2) =>
        match skipWs rest2 with
        | ':' :: rest3 =>
          match readVal fuel rest3 with
          | none => none
          | some (v, rest4) =>
            let acc2 := objInsert acc (String.mk kcs) v
            match skipWs rest4 with
            | ',' :: rest5 => readMembers fuel rest5 acc2
            | '\x7d' :: rest5 => some (Json.obj acc2, rest5)
            | _ => none
        | _ => none
    | _ => none

/-- Read the elements of a JSON array after the opening bracket (non-empty
case). -/
def readElems : Nat → List Char → List Json → Option (Json × List Char)
  | 0, _, _ => none
  | Nat.succ fuel, cs, acc =>
    match readVal fuel cs with
    | none => none
    | some (v, rest) =>
      let acc2 := acc ++ [v]
      match skipWs rest with
      | ',' :: rest2 => readElems fuel rest2 acc2
      | ']' :: rest2 => some (Json.arr acc2, rest2)
      | _ => none

end

/-- Python `json.loads`: reads one JSON document and requires the whole
input (up to trailing whitespace) to be consumed; `none` models a raised
`json.JSONDecodeError`. -/
def jsonLoads (s : String) : Option Json :=
  match readVal (s.data.length + 1) s.data with
  | some (j, rest) => if (skipWs rest).isEmpty then some j else none
  | none => none

/-- Python `line_str.startswith(p)`. -/
def strStartsWith (s p : String) : Bool :=
  s.data.take p.data.length == p.data

/-- Python `line_str[n:]` (slicing by code point, as Python does). -/
def strDrop (s : String) (n : Nat) : String := String.mk (s.data.drop n)

/-- Python `not line_str.strip()`: the string is empty or all whitespace. -/
def isBlank (s : String) : Bool := s.data.all isWsChar

/-- Outcome delivered by the streaming HTTP transport for one turn:
either `requests.post` itself raises a `RequestException`, or a response
arrives with a status code, a body text (used for non-200 statuses), the
decoded body lines, and optionally a transport failure raised by
`iter_lines` after `k` lines were delivered (with the exception message). -/
inductive HttpResult where
  | exn (msg : String) : HttpResult
  | resp (status : Nat) (text : String) (body : List String)
      (midExn : Option (Nat × String)) : HttpResult

/-- State of one `chatbot_streaming` reduction: the yielded fragments (in
order), the `st.error` messages, the session `conversation_id`
(`st.session_state.conversation_id`), and whether the event loop has been
left by `break`. -/
structure ChatStreamState where
  frags : List Json
  errs : List String
  convId : Json
  stopped : Bool

/-- Fresh reduction state at the start of a turn whose session conversation
id is `conv`. -/
def chatInit (conv : Json) : ChatStreamState :=
  { frags := [], errs := [], convId := conv, stopped := false }

/-- Event dispatch of `chatbot_streaming` (dify.py lines 100-116): `message`
and `agent_message` yield a truthy `answer`; `message_end` stores a truthy
`conversation_id` into the session; `error` reports, yields the error
annotation and breaks; other events are ignored. -/
def chatbotHandleEvent (st : ChatStreamState) (data : Json) : ChatStreamState :=
  let event := data.getD "event" (Json.str "")
  if event.eqStr "message" || event.eqStr "agent_message" then
    let answer := data.getD "answer" (Json.str "")
    if answer.truthy then { st with frags := st.frags ++ [answer] } else st
  else if event.eqStr "message_end" then
    let convId := data.getD "conversation_id" (Json.str "")
    if convId.truthy then { st with convId := convId } else st
  else if event.eqStr "error" then
    let errorMsg := data.getD "message" (Json.str "Unknown error")
    { st with
        errs := st.errs ++ ["❌ Error: " ++ errorMsg.pyStr],
        frags := st.frags ++ [Json.str ("\n\nError: " ++ errorMsg.pyStr)],
        stopped := true }
  else st

/-- Line handling of `chatbot_streaming` (dify.py lines 89-119): empty or
blank lines are skipped, only lines starting with `"data: "` are decoded,
the prefix is stripped before `json.loads`, and a decode failure skips the
line (`continue`). -/
def chatbotHandleLine (st : ChatStreamState) (line : String) : ChatStreamState :=
  if line = "" then st
  else if isBlank line then st
  else if strStartsWith line "data: " then
    match jsonLoads (strDrop line 6) with
    | some data => chatbotHandleEvent st data
    | none => st
  else st

/-- The `for line in response.iter_lines()` loop of `chatbot_streaming`,
leaving the loop once `break` has fired. -/
def chatbotConsumeLines (st : ChatStreamState) : List String → ChatStreamState
  | [] => st
  | l :: ls =>
    if st.stopped then st else chatbotConsumeLines (chatbotHandleLine st l) ls

/-- The same loop over already-decoded events, mirroring the dispatch that
runs after a successful `json.loads` of each `data:` line. -/
def chatbotConsumeEvents (st : ChatStreamState) : List Json → ChatStreamState
  | [] => st
  | e :: es =>
    if st.stopped then st
    else chatbotConsumeEvents (chatbotHandleEvent st e) es

/-- One full `chatbot_streaming` turn (dify.py lines 44-123), given the API
key, the session conversation id at turn start, and the transport outcome:
missing key and non-200 statuses short-circuit with an error fragment; a
request exception yields an error fragment; a mid-stream `iter_lines`
exception is handled by the same `except` clause after the lines delivered
so far were processed (unless `break` already left the loop). -/
def chatbot_streaming (apiKey : String) (sessionConv : Json)
    (http : HttpResult) : ChatStreamState :=
  let st0 := chatInit sessionConv
  if apiKey = "" then
    { st0 with frags := [Json.str "API key not configured."] }
  else
    match http with
    | .exn msg =>
      { st0 with
          frags := [Json.str ("Error: " ++ msg)],
          errs := ["❌ Connection error: " ++ msg] }
    | .resp status text body midExn =>
      if status ≠ 200 then
        { st0 with
            errs := ["❌ HTTP " ++ toString status ++ ": " ++ text],
            frags := [Json.str ("Error: " ++ text)] }
      else
        match midExn with
        | none => chatbotConsumeLines st0 body
        | some (k, msg) =>
          let st1 := chatbotConsumeLines st0 (body.take k)
          if st1.stopped then st1
          else
            { st1 with
                frags := st1.frags ++ [Json.str ("Error: " ++ msg)],
                errs := st1.errs ++ ["❌ Connection error: " ++ msg] }

/-- Request payload built by `chatbot_streaming` (dify.py lines 62-70) and
`chatbot_blocking` (lines 143-151): the four fixed keys, with
`conversation_id` appended only when the caller-supplied id is truthy
(a non-empty string, per the `conversation_id: str` annotation). -/
def chatbotPayload (inputs : Json) (query : String) (responseMode : String)
    (userId : String) (conversationId : String) : List (String × Json) :=
  let base : List (String × Json) :=
    [("inputs", inputs.por (Json.obj [])),
     ("query", Json.str query),
     ("response_mode", Json.str responseMode),
     ("user", Json.str userId)]
  if conversationId ≠ "" then base ++ [("conversation_id", Json.str conversationId)]
  else base

/-- Outcome delivered by the blocking HTTP transport: either a raised
`RequestException`, or a response with a status code, its raw text, and the
JSON document `response.json()` decodes to (only consulted on status 200). -/
inductive BlockingHttp where
  | exn (msg : String) : BlockingHttp
  | resp (status : Nat) (text : String) (doc : Json) : BlockingHttp

/-- Result of a blocking request helper: the `answer` entry of the returned
dict (the display text), whether the dict carried `error: True`, the session
conversation id after the call, and the `st.error` messages. -/
structure BlockResult where
  answer : Json
  isError : Bool
  convId : Json
  errs : List String

/-- One `chatbot_blocking` call (dify.py lines 126-181): on status 200 the
answer is `result.get("answer", "No response.")` and the session
conversation id is overwritten whenever the key `conversation_id` is present
in the document; failures return an error answer and leave the session
untouched. -/
def chatbot_blocking (apiKey : String) (sessionConv : Json)
    (http : BlockingHttp) : BlockResult :=
  if apiKey = "" then
    { answer := Json.str "API key not configured.", isError := true,
      convId := sessionConv, errs := [] }
  else
    match http with
    | .exn msg =>
      { answer := Json.str ("Error: " ++ msg), isError := true,
        convId := sessionConv, errs := ["❌ Error: " ++ msg] }
    | .resp status text doc =>
      if status = 200 then
        { answer := doc.getD "answer" (Json.str "No response."),
          isError := false,
          convId := if doc.hasKey "conversation_id" then
              doc.getD "conversation_id" Json.null
            else sessionConv,
          errs := [] }
      else
        { answer := Json.str ("Error: " ++ text), isError := true,
          convId := sessionConv,
          errs := ["❌ HTTP " ++ toString status ++ ": " ++ text] }

/-- State of one `workflow_streaming` reduction: the yielded fragments, the
`st.error` messages, the `has_content` flag, and whether `break` has left
the loop. -/
structure WfStreamState where
  frags : List Json
  errs : List String
  hasContent : Bool
  stopped : Bool

/-- Fresh workflow reduction state. -/
def wfInit : WfStreamState :=
  { frags := [], errs := [], hasContent := false, stopped := false }

/-- Event dispatch of `workflow_streaming` (dify.py lines 236-280), with the
`debug_mode` flag as an explicit parameter: `workflow_started` and
`node_started` yield progress text only in debug mode; `node_finished`
yields the first truthy of `outputs.text / output / result / answer`;
`text_chunk` yields `data.text`; `workflow_finished` fires only when nothing
was yielded yet and falls back to `text`, `output`, then the indented JSON
dump of `outputs`; `error` reports via `st.error` and breaks without
yielding. -/
def workflowHandleEvent (debug : Bool) (st : WfStreamState) (data : Json) :
    WfStreamState :=
  let event := data.getD "event" (Json.str "")
  if event.eqStr "workflow_started" then
    if debug then
      { st with frags := st.frags ++ [Json.str "⚙️ Workflow started...\n\n"] }
    else st
  else if event.eqStr "node_started" then
    if debug then
      let nodeTitle :=
        (data.getD "data" (Json.obj [])).getD "title" (Json.str "Processing")
      { st with frags := st.frags ++ [Json.str ("▶️ " ++ nodeTitle.pyStr ++ "...\n")] }
    else st
  else if event.eqStr "node_finished" then
    let outputs := (data.getD "data" (Json.obj [])).getD "outputs" (Json.obj [])
    let text :=
      (((outputs.getD "text" (Json.str "")).por
        (outputs.getD "output" (Json.str ""))).por
        (outputs.getD "result" (Json.str ""))).por
        (outputs.getD "answer" (Json.str ""))
    if text.truthy then
      { st with hasContent := true, frags := st.frags ++ [text] }
    else st
  else if event.eqStr "text_chunk" then
    let text := (data.getD "data" (Json.obj [])).getD "text" (Json.str "")
    if text.truthy then
      { st with hasContent := true, frags := st.frags ++ [text] }
    else st
  else if event.eqStr "workflow_finished" then
    if !st.hasContent then
      let outputs := (data.getD "data" (Json.obj [])).getD "outputs" (Json.obj [])
      let text :=
        ((outputs.getD "text" (Json.str "")).por
          (outputs.getD "output" (Json.str ""))).por
          (Json.str (Json.dumps2 0 outputs))
      if text.truthy then
        { st with hasContent := true, frags := st.frags ++ [text] }
      else st
    else st
  else if event.eqStr "error" then
    let errorMsg := data.getD "message" (Json.str "Unknown error")
    { st with errs := st.errs ++ ["❌ Error: " ++ errorMsg.pyStr], stopped := true }
  else st

/-- Line handling of `workflow_streaming` (dify.py lines 228-283): only
non-empty lines starting with `"data: "` are decoded (there is no blank-line
check here, unlike the chat loop), and a decode failure skips the line. -/
def workflowHandleLine (debug : Bool) (st : WfStreamState) (line : String) :
    WfStreamState :=
  if line = "" then st
  else if strStartsWith line "data: " then
    match jsonLoads (strDrop line 6) with
    | some data => workflowHandleEvent debug st data
    | none => st
  else st

/-- The `for line in response.iter_lines()` loop of `workflow_streaming`. -/
def workflowConsumeLines (debug : Bool) (st : WfStreamState) :
    List String → WfStreamState
  | [] => st
  | l :: ls =>
    if st.stopped then st
    else workflowConsumeLines debug (workflowHandleLine debug st l) ls

/-- The same loop over already-decoded events. -/
def workflowConsumeEvents (debug : Bool) (st : WfStreamState) :
    List Json → WfStreamState
  | [] => st
  | e :: es =>
    if st.stopped then st
    else workflowConsumeEvents debug (workflowHandleEvent debug st e) es

/-- The post-loop sentinel check of `workflow_streaming` (dify.py lines
285-286): when the loop produced no content, yield the documented sentinel.
It runs after a normal loop exit and after `break`, but not when an
exception jumped to the `except` clause. -/
def workflowSentinel (st : WfStreamState) : WfStreamState :=
  if !st.hasContent then
    { st with frags := st.frags ++ [Json.str "No output received from workflow."] }
  else st

/-- The reduction of `workflow_streaming` over already-decoded events,
including the post-loop sentinel check. -/
def workflowReduceEvents (debug : Bool) (events : List Json) : WfStreamState :=
  workflowSentinel (workflowConsumeEvents debug wfInit events)

/-- One full `workflow_streaming` turn (dify.py lines 184-289): missing key
and non-200 statuses short-circuit with an error fragment; a mid-stream
`iter_lines` exception (after `k` delivered lines, if `break` has not fired
first) jumps to the `except` clause, which yields the error text and skips
the sentinel check; otherwise the sentinel check runs after the loop. -/
def workflow_streaming (debug : Bool) (apiKey : String) (http : HttpResult) :
    WfStreamState :=
  if apiKey = "" then
    { wfInit with frags := [Json.str "API key not configured."] }
  else
    match http with
    | .exn msg => { wfInit with frags := [Json.str ("Error: " ++ msg)] }
    | .resp status text body midExn =>
      if status ≠ 200 then
        { wfInit with
            errs := ["❌ HTTP " ++ toString status ++ ": " ++ text],
            frags := [Json.str ("Error: " ++ text)] }
      else
        match midExn with
        | none => workflowSentinel (workflowConsumeLines debug wfInit body)
        | some (k, msg) =>
          let st1 := workflowConsumeLines debug wfInit (body.take k)
          if st1.stopped then workflowSentinel st1
          else { st1 with frags := st1.frags ++ [Json.str ("Error: " ++ msg)] }

/-- One `workflow_blocking` call (dify.py lines 292-341): on status 200 the
answer is the first truthy of `data.outputs.text / output / result`, falling
back to the indented JSON dump of `outputs` (note: the `answer` key is not
probed here, unlike the streaming `node_finished` handler). -/
def workflow_blocking (apiKey : String) (http : BlockingHttp) : BlockResult :=
  if apiKey = "" then
    { answer := Json.str "API key not configured.", isError := true,
      convId := Json.null, errs := [] }
  else
    match http with
    | .exn msg =>
      { answer := Json.str ("Error: " ++ msg), isError := true,
        convId := Json.null, errs := [] }
    | .resp status text doc =>
      if status = 200 then
        let outputs := (doc.getD "data" (Json.obj [])).getD "outputs" (Json.obj [])
        let answer :=
          ((outputs.getD "text" (Json.str "")).por
            (outputs.getD "output" (Json.str ""))).por
            (outputs.getD "result" (Json.str "")) |>.por
            (Json.str (Json.dumps2 0 outputs))
        { answer := answer, isError := false, convId := Json.null, errs := [] }
      else
        { answer := Json.str ("Error: " ++ text), isError := true,
          convId := Json.null,
          errs := ["❌ HTTP " ++ toString status ++ ": " ++ text] }

/-- A decoded `message` or `agent_message` event (`kind` picks which) with a
string `answer`. -/
def messageEvent (kind a : String) : Json :=
  Json.obj [("event", Json.str kind), ("answer", Json.str a)]

/-- A decoded `message_end` event carrying a `conversation_id`. -/
def messageEndEvent (c : String) : Json :=
  Json.obj [("event", Json.str "message_end"), ("conversation_id", Json.str c)]

/-- A decoded `error` event with a `message`. -/
def errorEvent (m : String) : Json :=
  Json.obj [("event", Json.str "error"), ("message", Json.str m)]

/-- A decoded `error` event without a `message` field. -/
def errorEventNoMessage : Json := Json.obj [("event", Json.str "error")]

/-- A decoded `workflow_started` event. -/
def workflowStartedEvent : Json := Json.obj [("event", Json.str "workflow_started")]

/-- A decoded `node_started` event with a node title. -/
def nodeStartedEvent (t : String) : Json :=
  Json.obj [("event", Json.str "node_started"),
            ("data", Json.obj [("title", Json.str t)])]

/-- A decoded `text_chunk` event with a text payload. -/
def textChunkEvent (t : String) : Json :=
  Json.obj [("event", Json.str "text_chunk"),
            ("data", Json.obj [("text", Json.str t)])]

/-- A decoded `node_finished` event with an `outputs` mapping. -/
def nodeFinishedEvent (outputs : Json) : Json :=
  Json.obj [("event", Json.str "node_finished"),
            ("data", Json.obj [("outputs", outputs)])]

/-- A decoded `workflow_finished` event with an `outputs` mapping. -/
def workflowFinishedEvent (outputs : Json) : Json :=
  Json.obj [("event", Json.str "workflow_finished"),
            ("data", Json.obj [("outputs", outputs)])]

/-- The output-extraction policy in the spec's words: the first key of
`keys`, in order, whose value in `outputs` is non-empty (truthy), with a
fallback when none is.  Stated from the spec for comparison against the
nested `or` chains of the source. -/
def firstTruthyKey (outputs : Json) : List String → Json → Json
  | [], fallback => fallback
  | k :: ks, fallback =>
    let v := outputs.getD k (Json.str "")
    if v.truthy then v else firstTruthyKey outputs ks fallback

/-- The spec's four-key priority policy for `node_finished` outputs:
`text`, then `output`, then `result`, then `answer` (empty fallback). -/
def nodeOutputsPriority (outputs : Json) : Json :=
  firstTruthyKey outputs ["text", "output", "result", "answer"] (Json.str "")

/-- The source's `or` chain over the four `node_finished` output keys, as
written in dify.py lines 249-254. -/
def outputsOrChain (outputs : Json) : Json :=
  (((outputs.getD "text" (Json.str "")).por
    (outputs.getD "output" (Json.str ""))).por
    (outputs.getD "result" (Json.str ""))).por
    (outputs.getD "answer" (Json.str ""))

/-- Conversation id retained after a sequence of `message_end` events whose
ids are `ids`, starting from `c0`: the last non-empty id, if any. -/
def lastTruthyConvId (c0 : Json) (ids : List String) : Json :=
  (ids.filter (fun s => s != "")).foldl (fun _ s => Json.str s) c0

/-- A stopped chat reduction absorbs every remaining event: nothing after a
`break` contributes to state or display. -/
theorem chatbotConsumeEvents_stopped (st : ChatStreamState)
    (h : st.stopped = true) (es : List Json) : chatbotConsumeEvents st es = st := by
  cases es with
  | nil => rfl
  | cons e es => simp [chatbotConsumeEvents, h]

/-- A stopped workflow reduction absorbs every remaining event. -/
theorem workflowConsumeEvents_stopped (debug : Bool) (st : WfStreamState)
    (h : st.stopped = true) (es : List Json) :
    workflowConsumeEvents debug st es = st := by
  cases es with
  | nil => rfl
  | cons e es => simp [workflowConsumeEvents, h]

/-- A stopped chat line loop absorbs every remaining line. -/
theorem chatbotConsumeLines_stopped (st : ChatStreamState)
    (h : st.stopped = true) (ls : List String) : chatbotConsumeLines st ls = st := by
  cases ls with
  | nil => rfl
  | cons l ls => simp [chatbotConsumeLines, h]

/-- Effect of a `message_end` event: the session conversation id is
overwritten exactly when the carried id is non-empty. -/
theorem chatbotHandleEvent_messageEnd (st : ChatStreamState) (c : String) :
    chatbotHandleEvent st (messageEndEvent c) =
      if c != "" then { st with convId := Json.str c } else st := by
  simp [chatbotHandleEvent, messageEndEvent, Json.getD, Json.eqStr, Json.truthy,
    List.lookup]

/-- Consuming a sequence of `message_end` events from an unstopped state
changes only the conversation id, to the last non-empty id carried. -/
theorem consume_messageEnds (st : ChatStreamState) (h : st.stopped = false)
    (ids : List String) :
    chatbotConsumeEvents st (ids.map messageEndEvent) =
      { st with convId := lastTruthyConvId st.convId ids } := by
  induction ids generalizing st with
  | nil => simp [chatbotConsumeEvents, lastTruthyConvId]
  | cons i ids ih =>
    simp only [List.map_cons, chatbotConsumeEvents, h, if_false,
      chatbotHandleEvent_messageEnd]
    by_cases hi : i = ""
    · subst hi
      simp only [lastTruthyConvId, List.filter_cons]
      simpa [lastTruthyConvId, h] using ih st h
    · have hbne : (i != "") = true := by simpa [bne_iff_ne] using hi
      simp only [hbne, if_true, List.filter_cons]
      rw [ih _ (by simp [h])]
      simp [lastTruthyConvId, hbne]

/-- Effect of a `message` / `agent_message` event: the `answer` string is
yielded exactly when non-empty; nothing else changes. -/
theorem chatbotHandleEvent_message (st : ChatStreamState) (kind a : String)
    (hk : kind = "message" ∨ kind = "agent_message") :
    chatbotHandleEvent st (messageEvent kind a) =
      if a != "" then { st with frags := st.frags ++ [Json.str a] } else st := by
  rcases hk with h | h <;> subst h <;>
    simp [chatbotHandleEvent, messageEvent, Json.getD, Json.eqStr, Json.truthy,
      List.lookup]

/-- Consuming a sequence of `message` / `agent_message` events with
non-empty answers appends exactly those answers, in order. -/
theorem consume_messages (st : ChatStreamState) (h : st.stopped = false)
    (evts : List (String × String))
    (hk : ∀ p ∈ evts, p.1 = "message" ∨ p.1 = "agent_message")
    (ha : ∀ p ∈ evts, p.2 ≠ "") :
    chatbotConsumeEvents st (evts.map (fun p => messageEvent p.1 p.2)) =
      { st with frags := st.frags ++ evts.map (fun p => Json.str p.2) } := by
  induction evts generalizing st with
  | nil => simp [chatbotConsumeEvents]
  | cons p ps ih =>
    have hk1 := hk p (List.mem_cons_self ..)
    have ha1 := ha p (List.mem_cons_self ..)
    have hbne : (p.2 != "") = true := by simpa [bne_iff_ne] using ha1
    simp only [List.map_cons, chatbotConsumeEvents, h, if_false,
      chatbotHandleEvent_message st p.1 p.2 hk1, hbne, if_true]
    rw [ih _ (by simp [h]) (fun q hq => hk q (List.mem_cons_of_mem _ hq))
      (fun q hq => ha q (List.mem_cons_of_mem _ hq))]
    simp [h]

/-- The display text of a list of string fragments is their concatenation. -/
theorem displayText_strs (l : List String) :
    displayText (l.map Json.str) = some (concatStrings l) := by
  induction l with
  | nil => rfl
  | cons s l ih => simp [displayText, Json.asText, ih, concatStrings]

/-- C1 counterexample: in a streamed reduction a second `message_end` with
`conversation_id = "xyz"` after one with `"abc123"` leaves the session
holding `"xyz"`, not the claimed `"abc123"` — the first write does not win. -/
theorem message_end_second_overwrites :
    (chatbot_streaming "app-key" (Json.str "")
      (.resp 200 ""
        ["data: \x7b\"event\":\"message_end\",\"conversation_id\":\"abc123\"\x7d",
         "data: \x7b\"event\":\"message_end\",\"conversation_id\":\"xyz\"\x7d"]
        none)).convId = Json.str "xyz"
    ∧ Json.str "xyz" ≠ Json.str "abc123" := by
  refine ⟨rfl, ?_⟩
  simp

/-- C1 (amended): the session's conversation identifier is written by every
`message_end` event that carries a non-empty `conversation_id`, so the last
such event wins; `message_end` events contribute no display text. -/
theorem conversation_id_last_write_wins (c0 : Json) (ids : List String) :
    (chatbotConsumeEvents (chatInit c0) (ids.map messageEndEvent)).convId
        = lastTruthyConvId c0 ids
    ∧ (chatbotConsumeEvents (chatInit c0) (ids.map messageEndEvent)).frags = [] := by
  rw [consume_messageEnds _ rfl]
  exact ⟨rfl, rfl⟩

/-- C5: the display text of a conversational reduction over `message` /
`agent_message` events with non-empty answers is the concatenation of the
answers in arrival order. -/
theorem message_concatenation (c0 : Json) (evts : List (String × String))
    (hk : ∀ p ∈ evts, p.1 = "message" ∨ p.1 = "agent_message")
    (ha : ∀ p ∈ evts, p.2 ≠ "") :
    displayText (chatbotConsumeEvents (chatInit c0)
        (evts.map (fun p => messageEvent p.1 p.2))).frags
      = some (concatStrings (evts.map Prod.snd)) := by
  rw [consume_messages _ rfl evts hk ha]
  show displayText ([] ++ evts.map (fun p => Json.str p.2)) = _
  rw [List.nil_append]
  have hmm : evts.map (fun p => Json.str p.2)
      = (evts.map Prod.snd).map Json.str := by
    simp [List.map_map]
  rw [hmm, displayText_strs]

/-- Effect of an `error` event on the chat reduction: report, yield the
error annotation, stop. -/
theorem chatbotHandleEvent_error (st : ChatStreamState) (m : String) :
    chatbotHandleEvent st (errorEvent m) =
      { st with
          errs := st.errs ++ ["❌ Error: " ++ m],
          frags := st.frags ++ [Json.str ("\n\nError: " ++ m)],
          stopped := true } := by
  simp [chatbotHandleEvent, errorEvent, Json.getD, Json.eqStr, List.lookup,
    Json.pyStr]

/-- Effect of an `error` event without a `message` field on the chat
reduction: the annotation defaults to "Unknown error". -/
theorem chatbotHandleEvent_errorNoMessage (st : ChatStreamState) :
    chatbotHandleEvent st errorEventNoMessage =
      { st with
          errs := st.errs ++ ["❌ Error: Unknown error"],
          frags := st.frags ++ [Json.str "\n\nError: Unknown error"],
          stopped := true } := by
  simp [chatbotHandleEvent, errorEventNoMessage, Json.getD, Json.eqStr,
    List.lookup, Json.pyStr]

/-- Effect of an `error` event on the workflow reduction: report via the UI
error widget and stop — nothing is appended to the yielded fragments. -/
theorem workflowHandleEvent_error (debug : Bool) (st : WfStreamState) (m : String) :
    workflowHandleEvent debug st (errorEvent m) =
      { st with errs := st.errs ++ ["❌ Error: " ++ m], stopped := true } := by
  simp [workflowHandleEvent, errorEvent, Json.getD, Json.eqStr, List.lookup,
    Json.pyStr]

/-- Effect of a `text_chunk` event with non-empty text: the text is yielded
and content is marked. -/
theorem workflowHandleEvent_textChunk (debug : Bool) (st : WfStreamState)
    (t : String) (ht : t ≠ "") :
    workflowHandleEvent debug st (textChunkEvent t) =
      { st with hasContent := true, frags := st.frags ++ [Json.str t] } := by
  have hbne : (t != "") = true := by simpa [bne_iff_ne] using ht
  simp [workflowHandleEvent, textChunkEvent, Json.getD, Json.eqStr,
    List.lookup, Json.truthy, hbne]

/-- Consuming an appended event list runs the two parts in sequence. -/
theorem workflowConsumeEvents_append (debug : Bool) (st : WfStreamState)
    (a b : List Json) :
    workflowConsumeEvents debug st (a ++ b) =
      workflowConsumeEvents debug (workflowConsumeEvents debug st a) b := by
  induction a generalizing st with
  | nil => rfl
  | cons e es ih =>
    by_cases h : st.stopped
    · simp [workflowConsumeEvents, h, workflowConsumeEvents_stopped debug st h]
    · simp [List.cons_append, workflowConsumeEvents, h, ih]

/-- With debug mode off, `workflow_started` and `node_started` events leave
the workflow reduction state unchanged. -/
theorem workflowConsumeEvents_benign (st : WfStreamState)
    (h : st.stopped = false) (front : List Json)
    (hb : ∀ e ∈ front, e = workflowStartedEvent ∨ ∃ t, e = nodeStartedEvent t) :
    workflowConsumeEvents false st front = st := by
  induction front with
  | nil => rfl
  | cons e es ih =>
    have he := hb e (List.mem_cons_self ..)
    have hstep : workflowHandleEvent false st e = st := by
      rcases he with h1 | ⟨t, h1⟩ <;> subst h1 <;>
        simp [workflowHandleEvent, workflowStartedEvent, nodeStartedEvent,
          Json.getD, Json.eqStr, List.lookup]
    simp [workflowConsumeEvents, h, hstep,
      ih (fun q hq => hb q (List.mem_cons_of_mem _ hq))]

/-- C2 counterexample: a stream of only `workflow_started` / `node_started`
events ending in `workflow_finished` with empty `outputs` yields the
two-character dump of the empty mapping, not the no-output sentinel. -/
theorem empty_outputs_dump_counterexample :
    displayText (workflow_streaming false "app-key"
      (.resp 200 ""
        ["data: \x7b\"event\":\"workflow_started\"\x7d",
         "data: \x7b\"event\":\"node_started\",\"data\":\x7b\"title\":\"LLM\"\x7d\x7d",
         "data: \x7b\"event\":\"workflow_finished\",\"data\":\x7b\"outputs\":\x7b\x7d\x7d\x7d"]
        none)).frags
      = some "\x7b\x7d"
    ∧ some "\x7b\x7d" ≠ some "No output received from workflow." := by
  exact ⟨by decide, by decide⟩

/-- C2 (amended): a workflow stream whose pre-terminal events produce no
display text and whose `workflow_finished` carries an empty `outputs`
mapping displays the serialized dump of that empty mapping (the string of
an opening and a closing brace) — not the no-output sentinel, not the empty
string, and not an error. -/
theorem empty_outputs_dump (front : List Json)
    (hb : ∀ e ∈ front, e = workflowStartedEvent ∨ ∃ t, e = nodeStartedEvent t) :
    displayText (workflowReduceEvents false
        (front ++ [workflowFinishedEvent (Json.obj [])])).frags
      = some "\x7b\x7d"
    ∧ "\x7b\x7d" ≠ "No output received from workflow."
    ∧ "\x7b\x7d" ≠ "" := by
  unfold workflowReduceEvents
  rw [workflowConsumeEvents_append, workflowConsumeEvents_benign wfInit rfl front hb]
  exact ⟨by decide, by decide, by decide⟩

/-- C2 witness: the amended statement at a concrete two-event prefix. -/
theorem empty_outputs_dump_witness :
    displayText (workflowReduceEvents false
        ([workflowStartedEvent, nodeStartedEvent "LLM"] ++
          [workflowFinishedEvent (Json.obj [])])).frags
      = some "\x7b\x7d" :=
  (empty_outputs_dump [workflowStartedEvent, nodeStartedEvent "LLM"]
    (by
      intro e he
      rcases List.mem_cons.mp he with rfl | he2
      · exact Or.inl rfl
      · rcases List.mem_singleton.mp he2 with rfl
        exact Or.inr ⟨"LLM", rfl⟩)).1

/-- C5 witness: two concrete events concatenate to "Hello, world". -/
theorem message_concatenation_witness :
    displayText (chatbotConsumeEvents (chatInit (Json.str ""))
        ([("message", "Hello, "), ("agent_message", "world")].map
          (fun p => messageEvent p.1 p.2))).frags
      = some "Hello, world" :=
  (message_concatenation (Json.str "")
      [("message", "Hello, "), ("agent_message", "world")]
      (by decide) (by decide)).trans (by rfl)

/-- C3 counterexample: in task (workflow) streaming, an `error` event does
NOT append the error annotation to the display text — after a `text_chunk`
yielding "partial " and an `error` with message "quota exceeded", the final
display text is "partial ", not "partial \n\nError: quota exceeded" (and the
line after the error is indeed ignored). -/
theorem workflow_error_annotation_missing :
    displayText (workflow_streaming false "app-key"
      (.resp 200 ""
        ["data: \x7b\"event\":\"text_chunk\",\"data\":\x7b\"text\":\"partial \"\x7d\x7d",
         "data: \x7b\"event\":\"error\",\"message\":\"quota exceeded\"\x7d",
         "data: \x7b\"event\":\"text_chunk\",\"data\":\x7b\"text\":\"later\"\x7d\x7d"]
        none)).frags
      = some "partial "
    ∧ some "partial " ≠ some ("partial " ++ "\n\nError: quota exceeded") := by
  exact ⟨by decide, by decide⟩

/-- C3 (amended): in conversational streaming an `error` event appends the
terminal annotation "\n\nError: " followed by the event's message ("Unknown
error" when the field is absent) and stops the reduction, so no later event
contributes; in task (workflow) streaming the `error` event stops the
reduction and reports the message only through the UI error widget,
appending nothing to the display text. -/
theorem error_event_semantics (c0 : Json) (a m : String) (ha : a ≠ "")
    (suffix : List Json) :
    (chatbotConsumeEvents (chatInit c0)
        ([messageEvent "message" a, errorEvent m] ++ suffix)).frags
      = [Json.str a, Json.str ("\n\nError: " ++ m)]
    ∧ (workflowConsumeEvents false wfInit
        ([textChunkEvent a, errorEvent m] ++ suffix)).frags = [Json.str a]
    ∧ (workflowConsumeEvents false wfInit
        ([textChunkEvent a, errorEvent m] ++ suffix)).errs
      = ["❌ Error: " ++ m]
    ∧ (chatbotConsumeEvents (chatInit c0) [errorEventNoMessage]).frags
      = [Json.str "\n\nError: Unknown error"] := by
  have hbne : (a != "") = true := by simpa [bne_iff_ne] using ha
  refine ⟨?_, ?_, ?_, ?_⟩
  · simp only [List.cons_append, chatbotConsumeEvents, chatInit]
    rw [chatbotHandleEvent_message _ _ _ (Or.inl rfl)]
    simp only [hbne, if_true, chatbotHandleEvent_error]
    rw [chatbotConsumeEvents_stopped _ rfl]
    simp
  · simp only [List.cons_append, workflowConsumeEvents, wfInit]
    rw [workflowHandleEvent_textChunk _ _ _ ha]
    simp only [workflowHandleEvent_error]
    rw [workflowConsumeEvents_stopped _ _ rfl]
    simp
  · simp only [List.cons_append, workflowConsumeEvents, wfInit]
    rw [workflowHandleEvent_textChunk _ _ _ ha]
    simp only [workflowHandleEvent_error]
    rw [workflowConsumeEvents_stopped _ _ rfl]
    simp
  · simp only [chatbotConsumeEvents, chatInit, chatbotHandleEvent_errorNoMessage]
    simp

/-- C7: a `node_finished` event appends exactly the first truthy value among
the `outputs` keys `text`, `output`, `result`, `answer`, in that fixed
order (and nothing when all are empty or absent); on
`outputs = (output: "A", result: "B")` the extracted fragment is "A". -/
theorem node_finished_priority :
    (∀ (debug : Bool) (st : WfStreamState) (outputs : Json),
      workflowHandleEvent debug st (nodeFinishedEvent outputs) =
        if (nodeOutputsPriority outputs).truthy then
          { st with hasContent := true, frags := st.frags ++ [nodeOutputsPriority outputs] }
        else st)
    ∧ nodeOutputsPriority (Json.obj [("output", Json.str "A"), ("result", Json.str "B")])
      = Json.str "A"
    ∧ (workflowHandleEvent false wfInit (nodeFinishedEvent
        (Json.obj [("output", Json.str "A"), ("result", Json.str "B")]))).frags
      = [Json.str "A"] := by
  refine ⟨?_, rfl, rfl⟩
  intro debug st outputs
  have hdisp : workflowHandleEvent debug st (nodeFinishedEvent outputs) =
      (if (outputsOrChain outputs).truthy then
        { st with hasContent := true, frags := st.frags ++ [outputsOrChain outputs] }
      else st) := rfl
  rw [hdisp]
  have hempty : (Json.str "").truthy = false := rfl
  by_cases h1 : (outputs.getD "text" (Json.str "")).truthy <;>
    by_cases h2 : (outputs.getD "output" (Json.str "")).truthy <;>
      by_cases h3 : (outputs.getD "result" (Json.str "")).truthy <;>
        by_cases h4 : (outputs.getD "answer" (Json.str "")).truthy <;>
          simp [outputsOrChain, nodeOutputsPriority, firstTruthyKey, Json.por,
            hempty, h1, h2, h3, h4]

/-- C4 counterexample: for a blocking task response whose `data.outputs`
carries only `answer: "hi"`, the claimed policy (probe `answer` fourth)
yields "hi", but `workflow_blocking` does not probe `answer` and returns
the serialized dump of the outputs mapping instead. -/
theorem blocking_answer_key_not_probed :
    (workflow_blocking "app-key" (.resp 200 ""
        (Json.obj [("data", Json.obj [("outputs",
          Json.obj [("answer", Json.str "hi")])])]))).answer
      = Json.str "\x7b\n  \"answer\": \"hi\"\n\x7d"
    ∧ firstTruthyKey (Json.obj [("answer", Json.str "hi")])
        ["text", "output", "result", "answer"] (Json.str "") = Json.str "hi"
    ∧ Json.str "\x7b\n  \"answer\": \"hi\"\n\x7d" ≠ Json.str "hi" := by
  refine ⟨rfl, rfl, by simp⟩

/-- C4 (amended): blocking task extraction applies the fixed priority order
`text`, then `output`, then `result` — the `answer` key is not probed — to
the nested `data.outputs` mapping, with the indent-2 JSON dump of the whole
outputs mapping as fallback. -/
theorem workflow_blocking_extraction (apiKey text0 : String) (doc : Json)
    (hk : apiKey ≠ "") :
    (workflow_blocking apiKey (.resp 200 text0 doc)).answer =
      firstTruthyKey ((doc.getD "data" (Json.obj [])).getD "outputs" (Json.obj []))
        ["text", "output", "result"]
        (Json.str (Json.dumps2 0
          ((doc.getD "data" (Json.obj [])).getD "outputs" (Json.obj [])))) := by
  simp only [workflow_blocking, hk, if_false]
  set outputs := (doc.getD "data" (Json.obj [])).getD "outputs" (Json.obj []) with houtputs
  by_cases h1 : (outputs.getD "text" (Json.str "")).truthy <;>
    by_cases h2 : (outputs.getD "output" (Json.str "")).truthy <;>
      by_cases h3 : (outputs.getD "result" (Json.str "")).truthy <;>
        simp [firstTruthyKey, Json.por, h1, h2, h3]

/-- C4 witness: a response whose outputs carry `text: "done"` displays
"done". -/
theorem workflow_blocking_extraction_witness :
    (workflow_blocking "app-key" (.resp 200 ""
        (Json.obj [("data", Json.obj [("outputs",
          Json.obj [("text", Json.str "done")])])]))).answer = Json.str "done" :=
  (workflow_blocking_extraction "app-key" ""
      (Json.obj [("data", Json.obj [("outputs",
        Json.obj [("text", Json.str "done")])])]) (by decide)).trans (by rfl)

/-- A stopped workflow line loop absorbs every remaining line. -/
theorem workflowConsumeLines_stopped (debug : Bool) (st : WfStreamState)
    (h : st.stopped = true) (ls : List String) :
    workflowConsumeLines debug st ls = st := by
  cases ls with
  | nil => rfl
  | cons l ls => simp [workflowConsumeLines, h]

/-- A line starting with the data prefix is neither empty nor blank. -/
theorem dataLine_not_blank (line : String)
    (hp : strStartsWith line "data: " = true) :
    line ≠ "" ∧ isBlank line = false := by
  have hlit : "data: ".data = ['d', 'a', 't', 'a', ':', ' '] := rfl
  unfold strStartsWith at hp
  rw [hlit] at hp
  have h6 : line.data.take "data: ".data.length = ['d', 'a', 't', 'a', ':', ' '] := by
    simpa using hp
  cases hd : line.data with
  | nil =>
    rw [hd] at h6
    simp at h6
  | cons c cs =>
    rw [hd] at h6
    have hstep : List.take "data: ".data.length (c :: cs)
        = c :: List.take 5 cs := rfl
    rw [hstep] at h6
    have hc : c = 'd' := (List.cons_eq_cons.mp h6).1
    constructor
    · intro he
      have : line.data = [] := by rw [he]
      rw [hd] at this
      cases this
    · unfold isBlank
      rw [hd, hc]
      simp [isWsChar]

/-- C3 witness: the amended statement at the spec's concrete inputs, with a
trailing event after the error that is ignored. -/
theorem error_event_semantics_witness :
    (chatbotConsumeEvents (chatInit (Json.str ""))
        ([messageEvent "message" "partial ", errorEvent "quota exceeded"] ++
          [messageEvent "message" "later"])).frags
      = [Json.str "partial ", Json.str ("\n\nError: " ++ "quota exceeded")] :=
  (error_event_semantics (Json.str "") "partial " "quota exceeded" (by decide)
    [messageEvent "message" "later"]).1

/-- C6: a line that starts with the data prefix but whose remainder fails to
decode as JSON is dropped in both stream loops — the reduction continues on
the remaining lines exactly as if the bad line were absent. -/
theorem invalid_json_line_skipped (stc : ChatStreamState) (stw : WfStreamState)
    (debug : Bool) (line : String) (rest restw : List String)
    (hp : strStartsWith line "data: " = true)
    (hj : jsonLoads (strDrop line 6) = none) :
    chatbotConsumeLines stc (line :: rest) = chatbotConsumeLines stc rest
    ∧ workflowConsumeLines debug stw (line :: restw) =
        workflowConsumeLines debug stw restw := by
  obtain ⟨hne, hblank⟩ := dataLine_not_blank line hp
  have hchat : chatbotHandleLine stc line = stc := by
    simp [chatbotHandleLine, hne, hblank, hp, hj]
  have hwf : workflowHandleLine debug stw line = stw := by
    simp [workflowHandleLine, hne, hp, hj]
  constructor
  · by_cases hs : stc.stopped = true
    · rw [chatbotConsumeLines_stopped _ hs, chatbotConsumeLines_stopped _ hs]
    · have hs2 : stc.stopped = false := by simpa using hs
      simp [chatbotConsumeLines, hs2, hchat]
  · by_cases hs : stw.stopped = true
    · rw [workflowConsumeLines_stopped _ _ hs, workflowConsumeLines_stopped _ _ hs]
    · have hs2 : stw.stopped = false := by simpa using hs
      simp [workflowConsumeLines, hs2, hwf]

/-- C6 witness: the bad line "data: not-json" is skipped and the following
valid `message` event still yields "hi". -/
theorem invalid_json_line_skipped_witness :
    strStartsWith "data: not-json" "data: " = true
    ∧ jsonLoads (strDrop "data: not-json" 6) = none
    ∧ chatbotConsumeLines (chatInit (Json.str ""))
        ["data: not-json", "data: \x7b\"event\":\"message\",\"answer\":\"hi\"\x7d"]
      = chatbotConsumeLines (chatInit (Json.str ""))
        ["data: \x7b\"event\":\"message\",\"answer\":\"hi\"\x7d"]
    ∧ displayText (chatbotConsumeLines (chatInit (Json.str ""))
        ["data: not-json", "data: \x7b\"event\":\"message\",\"answer\":\"hi\"\x7d"]).frags
      = some "hi" :=
  ⟨rfl, rfl,
    (invalid_json_line_skipped (chatInit (Json.str "")) wfInit false
      "data: not-json"
      ["data: \x7b\"event\":\"message\",\"answer\":\"hi\"\x7d"] []
      rfl rfl).1,
    rfl⟩

/-- C8 counterexample: a transport failure one line into the stream, after a
`message_end` carrying `conversation_id = "abc123"`, leaves the session id
set to "abc123", not restored to its pre-turn value "". -/
theorem mid_stream_exception_keeps_update :
    (chatbot_streaming "app-key" (Json.str "")
      (.resp 200 ""
        ["data: \x7b\"event\":\"message_end\",\"conversation_id\":\"abc123\"\x7d"]
        (some (1, "connection reset")))).convId = Json.str "abc123"
    ∧ Json.str "abc123" ≠ Json.str "" := by
  exact ⟨rfl, by simp⟩

/-- C8 (amended): a turn that fails with a non-2xx status, with a transport
exception at request time, or in blocking mode, leaves the session
conversation id exactly as it was; a mid-stream transport failure keeps the
conversation id produced by the lines already processed (it does not
restore the pre-turn value). -/
theorem failed_turn_state (apiKey text0 msg : String) (conv doc : Json)
    (status : Nat) (body : List String) (mex : Option (Nat × String))
    (hk : apiKey ≠ "") (hs : status ≠ 200) :
    (chatbot_streaming apiKey conv (.resp status text0 body mex)).convId = conv
    ∧ (chatbot_streaming apiKey conv (.exn msg)).convId = conv
    ∧ (chatbot_blocking apiKey conv (.resp status text0 doc)).convId = conv
    ∧ (chatbot_blocking apiKey conv (.exn msg)).convId = conv
    ∧ (∀ (k : Nat) (m : String),
        (chatbot_streaming apiKey conv (.resp 200 text0 body (some (k, m)))).convId
          = (chatbotConsumeLines (chatInit conv) (body.take k)).convId) := by
  refine ⟨?_, ?_, ?_, ?_, ?_⟩
  · simp [chatbot_streaming, hk, hs, chatInit]
  · simp [chatbot_streaming, hk, chatInit]
  · simp [chatbot_blocking, hk, hs]
  · simp [chatbot_blocking, hk]
  · intro k m
    simp only [chatbot_streaming, hk, if_false]
    by_cases hstop : (chatbotConsumeLines (chatInit conv) (body.take k)).stopped
      = true
    · simp [hstop]
    · simp [hstop]

/-- C8 witness: the amended statement at a concrete failing turn. -/
theorem failed_turn_state_witness :
    (chatbot_streaming "app-key" (Json.str "c0")
        (.resp 500 "oops" ["data: x"] none)).convId = Json.str "c0"
    ∧ (chatbot_streaming "app-key" (Json.str "c0") (.exn "timeout")).convId
      = Json.str "c0"
    ∧ (chatbot_blocking "app-key" (Json.str "c0")
        (.resp 500 "oops" Json.null)).convId = Json.str "c0"
    ∧ (chatbot_blocking "app-key" (Json.str "c0") (.exn "timeout")).convId
      = Json.str "c0"
    ∧ (chatbot_streaming "app-key" (Json.str "c0")
        (.resp 200 "oops" ["data: x"] (some (1, "reset")))).convId
      = (chatbotConsumeLines (chatInit (Json.str "c0")) (["data: x"].take 1)).convId := by
  obtain ⟨h1, h2, h3, h4, h5⟩ := failed_turn_state "app-key" "oops" "timeout"
    (Json.str "c0") Json.null 500 ["data: x"] none (by decide) (by decide)
  exact ⟨h1, h2, h3, h4, h5 1 "reset"⟩

/-- C9: the conversational request payload carries `conversation_id` exactly
when the caller-supplied id is non-empty; with an empty id the payload is
exactly the four keys `inputs`, `query`, `response_mode`, `user`. -/
theorem payload_conversation_id_iff (inputs : Json)
    (query responseMode userId convId : String) :
    (((chatbotPayload inputs query responseMode userId convId).lookup
        "conversation_id").isSome = true ↔ convId ≠ "")
    ∧ (convId = "" →
        chatbotPayload inputs query responseMode userId convId =
          [("inputs", inputs.por (Json.obj [])), ("query", Json.str query),
           ("response_mode", Json.str responseMode), ("user", Json.str userId)]) := by
  constructor
  · by_cases h : convId = ""
    · subst h
      simp [chatbotPayload, List.lookup]
    · simp [chatbotPayload, h, List.lookup]
  · intro h
    simp [chatbotPayload, h]

/-- C9 witness: the payload at a non-empty and at an empty conversation id. -/
theorem payload_conversation_id_iff_witness :
    ((chatbotPayload (Json.obj []) "q" "streaming" "u" "abc").lookup
        "conversation_id").isSome = true
    ∧ chatbotPayload (Json.obj []) "q" "blocking" "u" "" =
        [("inputs", (Json.obj []).por (Json.obj [])), ("query", Json.str "q"),
         ("response_mode", Json.str "blocking"), ("user", Json.str "u")] :=
  ⟨(payload_conversation_id_iff (Json.obj []) "q" "streaming" "u" "abc").1.mpr
      (by decide),
   (payload_conversation_id_iff (Json.obj []) "q" "blocking" "u" "").2 rfl⟩

/-- When a key is absent, Python `d.get(k, default)` returns the default. -/
theorem Json.getD_of_hasKey_false (j : Json) (k : String) (d : Json)
    (h : j.hasKey k = false) : j.getD k d = d := by
  cases j with
  | obj fields =>
    simp only [Json.hasKey] at h
    cases hlk : List.lookup k fields with
    | none => simp [Json.getD, hlk]
    | some v => rw [hlk] at h; simp at h
  | null => rfl
  | bool b => rfl
  | num n => rfl
  | str s => rfl
  | arr l => rfl

/-- C10: a blocking conversational response with status 200 whose document
has no `answer` key displays the literal default "No response." and is not
marked as an error. -/
theorem blocking_no_answer_default (apiKey text0 : String) (conv doc : Json)
    (hk : apiKey ≠ "") (hd : doc.hasKey "answer" = false) :
    (chatbot_blocking apiKey conv (.resp 200 text0 doc)).answer
      = Json.str "No response."
    ∧ (chatbot_blocking apiKey conv (.resp 200 text0 doc)).isError = false := by
  constructor
  · simp [chatbot_blocking, hk,
      Json.getD_of_hasKey_false doc "answer" (Json.str "No response.") hd]
  · simp [chatbot_blocking, hk]

/-- C10 witness: a 200 document without `answer` displays "No response.". -/
theorem blocking_no_answer_default_witness :
    (chatbot_blocking "app-key" (Json.str "")
        (.resp 200 "" (Json.obj [("id", Json.str "1")]))).answer
      = Json.str "No response." :=
  (blocking_no_answer_default "app-key" "" (Json.str "")
    (Json.obj [("id", Json.str "1")]) (by decide) (by decide)).1



